import Mathlib

/-!
Shallow embedding of the Heracles query abstraction and normalization layer
(src/dashboard.rs, src/query/mod.rs, src/query/prom.rs, src/query/loki.rs,
src/query/logsql.rs), together with theorems settling the specification
claims about span resolution, filter substitution, result normalization and
error handling.

External library calls (the `parse_duration` crate, chrono's RFC3339
parsing and formatting, Rust's `f64` parsing) are modelled as function
parameters (bundled in `Env` or passed explicitly), since they are not part
of this repository.  Rust panics are modelled by `Option`/dedicated outcome
constructors.  `f64` sample values are modelled by `ℚ`; `chrono::Duration`
and `DateTime<Utc>` are modelled as nanosecond counts.
-/

namespace Heracles

/-- Model of `chrono::Duration`: a signed number of nanoseconds. -/
structure Duration where
  nanos : Int
deriving DecidableEq, Repr

/-- Model of `chrono::Duration::num_seconds` (whole seconds, truncating toward zero). -/
def Duration.num_seconds (d : Duration) : Int :=
  d.nanos.tdiv 1000000000

/-- Model of `chrono::Duration::minutes`. -/
def Duration.minutes (m : Int) : Duration :=
  ⟨m * 60 * 1000000000⟩

/-- Model of `chrono::DateTime<Utc>`: nanoseconds since the Unix epoch. -/
structure DateTime where
  nanos : Int
deriving DecidableEq, Repr

/-- Model of `DateTime::timestamp` (whole seconds since epoch, floor). -/
def DateTime.timestamp (d : DateTime) : Int :=
  d.nanos.fdiv 1000000000

/-- Model of `DateTime::timestamp_nanos_opt`: `none` when the nanosecond count
overflows an `i64`. -/
def DateTime.timestamp_nanos_opt (d : DateTime) : Option Int :=
  if -(2 ^ 63) ≤ d.nanos ∧ d.nanos < 2 ^ 63 then some d.nanos else none

/-- Model of `DateTime<Utc> - chrono::Duration`. -/
def DateTime.sub (d : DateTime) (du : Duration) : DateTime :=
  ⟨d.nanos - du.nanos⟩

/-- The external functions used by the span-resolution and connector code,
left abstract because they come from the `parse_duration` and `chrono`
crates, not from this repository.  `parse_duration` models the composition
of `parse_duration::parse` with `chrono::Duration::from_std`: `none` covers
both an unparsable string and an out-of-bounds magnitude (both are logged
and treated identically by `duration_from_string`). -/
structure Env where
  parse_duration : String → Option Duration
  parse_from_rfc3339 : String → Option DateTime
  to_rfc3339 : DateTime → String
  now : DateTime

/-- src/dashboard.rs `GraphSpan`: the three raw span strings as they appear in
configuration or in the request query parameters. -/
structure GraphSpan where
  «end» : String
  duration : String
  step_duration : String
deriving DecidableEq, Repr

/-- src/dashboard.rs `duration_from_string`: parse failure (of either stage)
is logged and yields `None`. -/
def duration_from_string (env : Env) (duration_string : String) : Option Duration :=
  env.parse_duration duration_string

/-- src/dashboard.rs `graph_span_to_tuple` (lines 175-203): a span candidate
resolves only when its `duration` and `step_duration` both parse; the `end`
string resolves to `now` for the literal "now", to the parsed RFC3339
instant when it parses, and falls back to `now` (with a logged warning)
otherwise. -/
def graph_span_to_tuple (env : Env) (span : Option GraphSpan) :
    Option (DateTime × Duration × Duration) :=
  match span with
  | none => none
  | some sp =>
    match duration_from_string env sp.duration with
    | none => none
    | some duration =>
      match duration_from_string env sp.step_duration with
      | none => none
      | some step_duration =>
        let e : DateTime :=
          if sp.«end» = "now" then env.now
          else
            match env.parse_from_rfc3339 sp.«end» with
            | some t => t
            | none => env.now
        some (e, duration, step_duration)

/-- src/query/mod.rs `QueryType`. -/
inductive QueryType where
  | Range
  | Scalar
deriving DecidableEq, Repr

/-- src/query/mod.rs `TimeSpan`. -/
structure TimeSpan where
  «end» : DateTime
  duration : Duration
  step_seconds : Int
deriving DecidableEq, Repr

/-- src/dashboard.rs `FillTypes`. -/
inductive FillTypes where
  | ToNextY
  | ToZeroY
  | ToNextX
  | ToZeroX
  | ToSelf
  | ToNext
deriving DecidableEq, Repr

/-- src/dashboard.rs `PlotMeta`. -/
structure PlotMeta where
  name_format : Option String
  fill : Option FillTypes
  yaxis : Option String
deriving DecidableEq, Repr

/-- src/dashboard.rs `AxisSide`. -/
inductive AxisSide where
  | Right
  | Left
deriving DecidableEq, Repr

/-- src/dashboard.rs `AxisDefinition`. -/
structure AxisDefinition where
  anchor : Option String
  overlaying : Option String
  side : Option AxisSide
  tick_format : Option String
deriving DecidableEq, Repr

/-- src/dashboard.rs `Orientation`. -/
inductive Orientation where
  | Horizontal
  | Vertical
deriving DecidableEq, Repr

/-- src/dashboard.rs `SubPlot`. -/
structure SubPlot where
  source : String
  query : String
  meta : PlotMeta
deriving DecidableEq, Repr

/-- src/dashboard.rs `Graph`. -/
structure Graph where
  title : String
  legend_orientation : Option Orientation
  yaxes : List AxisDefinition
  plots : List SubPlot
  span : Option GraphSpan
  query_type : QueryType
  d3_tick_format : Option String
deriving DecidableEq, Repr

/-- src/dashboard.rs `LogStream`. -/
structure LogStream where
  title : String
  legend_orientation : Option Orientation
  source : String
  yaxes : List AxisDefinition
  query : String
  span : Option GraphSpan
  limit : Option Nat
  query_type : QueryType
deriving DecidableEq, Repr

/-- A label set (`HashMap<String, String>` in the source), modelled as an
association list in backend response order. -/
abbrev LabelSet := List (String × String)

/-- src/query/prom.rs `PromQueryConn` (request-construction state only; the
HTTP client itself is external). -/
structure PromQueryConn where
  source : String
  query : String
  span : Option TimeSpan
  query_type : QueryType
  filters : Option (List (String × String))
  meta : PlotMeta
deriving DecidableEq, Repr

/-- src/query/prom.rs `PromQueryConn::new`. -/
def PromQueryConn.new (source query : String) (query_type : QueryType)
    (meta : PlotMeta) : PromQueryConn :=
  { source := source, query := query, query_type := query_type, meta := meta,
    span := none, filters := none }

/-- src/query/prom.rs `PromQueryConn::with_filters`. -/
def PromQueryConn.with_filters (c : PromQueryConn)
    (filters : List (String × String)) : PromQueryConn :=
  { c with filters := some filters }

/-- src/query/prom.rs `PromQueryConn::with_span`: stores the end instant, the
duration, and the step duration's whole-second count. -/
def PromQueryConn.with_span (c : PromQueryConn) («end» : DateTime)
    (duration : Duration) (step : Duration) : PromQueryConn :=
  { c with span := some ⟨«end», duration, step.num_seconds⟩ }

/-- src/dashboard.rs `Graph::get_query_connections` (lines 205-243): one
connector per sub-plot; the span precedence chain tries the query-parameter
span, then the graph's own span, then the `graph_span` argument (which the
caller `prom_query_data` fills with the dashboard span). -/
def Graph.get_query_connections (env : Env) (g : Graph)
    (graph_span : Option GraphSpan) (query_span : Option GraphSpan)
    (filters : Option (List (String × String))) : List PromQueryConn :=
  g.plots.map (fun plot =>
    let conn := PromQueryConn.new plot.source plot.query g.query_type plot.meta
    let conn :=
      match filters with
      | some f => conn.with_filters f
      | none => conn
    match graph_span_to_tuple env query_span with
    | some (e, duration, step_duration) => conn.with_span e duration step_duration
    | none =>
      match graph_span_to_tuple env g.span with
      | some (e, duration, step_duration) => conn.with_span e duration step_duration
      | none =>
        match graph_span_to_tuple env graph_span with
        | some (e, duration, step_duration) => conn.with_span e duration step_duration
        | none => conn)

/-! String utilities modelling Rust's `str::contains` and `str::replace`
(substring containment and left-to-right non-overlapping replacement of a
non-empty pattern).  The patterns used by `get_query` are the three constant
placeholder tokens, which are never empty, so the empty-pattern corner case
of Rust's `replace` is unreachable and `replaceList` simply returns the
haystack unchanged there. -/

/-- Substring containment on character lists (Rust `str::contains`). -/
def strContainsList (hay pat : List Char) : Bool :=
  if pat.isPrefixOf hay then true
  else
    match hay with
    | [] => false
    | _ :: t => strContainsList t pat

/-- Rust `str::contains` for string slices. -/
def strContains (s pat : String) : Bool :=
  strContainsList s.data pat.data

/-- Left-to-right non-overlapping replacement of a non-empty pattern
(Rust `str::replace`), with explicit fuel (one unit per haystack character)
so that the recursion is structural and evaluates in the kernel. -/
def replaceListAux (pat rep : List Char) : Nat → List Char → List Char
  | 0, l => l
  | _, [] => []
  | fuel + 1, h :: t =>
    if pat ≠ [] ∧ pat.isPrefixOf (h :: t) then
      rep ++ replaceListAux pat rep fuel (t.drop (pat.length - 1))
    else
      h :: replaceListAux pat rep fuel t

/-- Replacement of a non-empty pattern on character lists; the haystack's
length is always enough fuel because every step consumes at least one
character. -/
def replaceList (pat rep l : List Char) : List Char :=
  replaceListAux pat rep l.length l

/-- Rust `str::replace` for string slices. -/
def replaceAll (s pat rep : String) : String :=
  ⟨replaceList pat.data rep.data s.data⟩

/-- src/query/prom.rs `FILTER_PLACEHOLDER`. -/
def FILTER_PLACEHOLDER : String := "FILTERS"

/-- src/query/prom.rs `FILTER_COMMA_PLACEHOLDER`. -/
def FILTER_COMMA_PLACEHOLDER : String := ",FILTERS"

/-- src/query/prom.rs `FILTER_PLACEHOLDER_COMMA`. -/
def FILTER_PLACEHOLDER_COMMA : String := "FILTERS,"

/-- The filter-rendering loop at the top of `PromQueryConn::get_query`
(src/query/prom.rs lines 78-92).  Note that the source declares
`let first = true;` and never sets it to false, so the branch that would
push a separating comma between clauses never runs; the translation keeps
that (dead) branch verbatim. -/
def renderFilterString (filters : Option (List (String × String))) : String :=
  let first := true
  match filters with
  | none => ""
  | some fs =>
    fs.foldl
      (fun filter_string kv =>
        let filter_string := if !first then filter_string ++ "," else filter_string
        filter_string ++ kv.1 ++ "=~" ++ "\"" ++ kv.2 ++ "\"")
      ""

/-- src/query/prom.rs `PromQueryConn::get_query` (lines 77-115): renders the
filter clauses, then checks the three placeholder token-forms in order
(`FILTERS,` against the original query, then `,FILTERS` and bare `FILTERS`
against the progressively substituted query), mutating `filter_string` with
adjacency commas as it goes. -/
def PromQueryConn.get_query (conn : PromQueryConn) : String :=
  let filter_string := renderFilterString conn.filters
  let query := conn.query
  let st1 : String × String :=
    if strContains conn.query FILTER_PLACEHOLDER_COMMA then
      let fs := if filter_string ≠ "" then filter_string ++ "," else filter_string
      (fs, replaceAll query FILTER_PLACEHOLDER_COMMA fs)
    else (filter_string, query)
  let st2 : String × String :=
    if strContains st1.2 FILTER_COMMA_PLACEHOLDER then
      let fs := if st1.1 ≠ "" then "," ++ st1.1 else st1.1
      (fs, replaceAll st1.2 FILTER_COMMA_PLACEHOLDER fs)
    else st1
  if strContains st2.2 FILTER_PLACEHOLDER then
    replaceAll st2.2 FILTER_PLACEHOLDER st2.1
  else st2.2

/-- One conditional substitution pass: when `pat` occurs in the current
template, adjust the (non-empty) filter string with `adjust`, replace every
occurrence of `pat`, and carry the adjusted filter string forward. -/
def filter_subst_step (pat : String) (adjust : String → String)
    (st : String × String) : String × String :=
  if strContains st.2 pat then
    let fs := if st.1 ≠ "" then adjust st.1 else st.1
    (fs, replaceAll st.2 pat fs)
  else st

/-- The sequential-substitution reading of `get_query`: the three token-forms
are checked in the fixed order, every matching form is substituted, each
later check runs on the already-substituted template, and the comma-adjusted
filter string is carried from one step to the next. -/
def filter_subst_pipeline (filter_string query : String) : String :=
  let st := filter_subst_step FILTER_PLACEHOLDER_COMMA (fun s => s ++ ",")
    (filter_string, query)
  let st := filter_subst_step FILTER_COMMA_PLACEHOLDER (fun s => "," ++ s) st
  if strContains st.2 FILTER_PLACEHOLDER then
    replaceAll st.2 FILTER_PLACEHOLDER st.1
  else st.2

/-- src/query/mod.rs `DataPoint` (`f64` fields modelled as `ℚ`). -/
structure DataPoint where
  timestamp : ℚ
  value : ℚ
deriving DecidableEq, Repr

/-- src/query/mod.rs `LogLine` (`f64` timestamp modelled as `ℚ`). -/
structure LogLine where
  timestamp : ℚ
  line : String
deriving DecidableEq, Repr

/-- src/query/mod.rs `MetricsQueryResult`. -/
inductive MetricsQueryResult where
  | Series (v : List (LabelSet × PlotMeta × List DataPoint))
  | Scalar (v : List (LabelSet × PlotMeta × DataPoint))
deriving DecidableEq, Repr

/-- src/query/mod.rs `LogQueryResult` (called `QueryResult` at its use sites
in src/query/loki.rs and src/dashboard.rs). -/
inductive LogQueryResult where
  | StreamInstant (v : List (LabelSet × LogLine))
  | Stream (v : List (LabelSet × List LogLine))
deriving DecidableEq, Repr

/-- Alias matching the `QueryResult` name used by src/query/loki.rs. -/
abbrev QueryResult := LogQueryResult

/-- A sample of the `prometheus_http_query` response crate: a
(timestamp, value) pair of `f64`s, modelled as `ℚ`. -/
structure Sample where
  timestamp : ℚ
  value : ℚ
deriving DecidableEq, Repr

/-- The `prometheus_http_query::response::Data` payload union: the payload's
own shape tag with its label sets and samples. -/
inductive Data where
  | Matrix (range : List (LabelSet × List Sample))
  | Vector (vector : List (LabelSet × Sample))
  | Scalar (sample : Sample)
deriving DecidableEq, Repr

/-- src/query/prom.rs `prom_to_samples` (lines 162-208): dispatches on the
payload's own shape tag. -/
def prom_to_samples (data : Data) (meta : PlotMeta) : MetricsQueryResult :=
  match data with
  | .Matrix range =>
    MetricsQueryResult.Series
      (range.map (fun rv =>
        (rv.1, meta, rv.2.map (fun s => DataPoint.mk s.timestamp s.value))))
  | .Vector vector =>
    MetricsQueryResult.Scalar
      (vector.map (fun iv => (iv.1, meta, DataPoint.mk iv.2.timestamp iv.2.value)))
  | .Scalar sample =>
    MetricsQueryResult.Scalar [([], meta, DataPoint.mk sample.timestamp sample.value)]

/-- The loop body of src/dashboard.rs `prom_query_data` (lines 132-137): each
connector's raw payload is normalized with the connector's plot metadata;
the connector's `query_type` plays no role in normalization. -/
def prom_query_data_step (conn : PromQueryConn) (d : Data) : MetricsQueryResult :=
  prom_to_samples d conn.meta

/-- src/query/loki.rs `ResultType`. -/
inductive ResultType where
  | Vector
  | Matrix
  | Streams
deriving DecidableEq, Repr

/-- src/query/loki.rs `LokiResult`: one backend result entry; `value` is
populated for vector result types, `values` for matrix and stream result
types. -/
structure LokiResult where
  labels : LabelSet
  value : Option (String × String)
  values : Option (List (String × String))
deriving DecidableEq, Repr

/-- src/query/loki.rs `LokiData`. -/
structure LokiData where
  result_type : ResultType
  result : List LokiResult
deriving DecidableEq, Repr

/-- src/query/loki.rs `LokiResponse`. -/
structure LokiResponse where
  status : String
  data : LokiData
deriving DecidableEq, Repr

/-- Loop body of the vector branch of `loki_to_sample` (src/query/loki.rs
lines 69-85): an entry with a `value` is parsed — where
`value.0.parse::<f64>().expect(..)` panics, modelled by `none` — and pushed;
an entry without one is logged and skipped. -/
def loki_vector_step (pf : String → Option ℚ)
    (acc : List (LabelSet × LogLine)) (r : LokiResult) :
    Option (List (LabelSet × LogLine)) :=
  match r.value with
  | some value =>
    match pf value.1 with
    | some ts => some (acc ++ [(r.labels, LogLine.mk ts value.2)])
    | none => none
  | none => some acc

/-- Loop body of the matrix/streams branch of `loki_to_sample`
(src/query/loki.rs lines 90-108): an entry with `values` has every pair's
timestamp parsed (a failing parse is the panicking `expect`, modelled by
`none`); an entry without `values` is logged and skipped. -/
def loki_stream_step (pf : String → Option ℚ)
    (acc : List (LabelSet × List LogLine)) (r : LokiResult) :
    Option (List (LabelSet × List LogLine)) :=
  match r.values with
  | some value =>
    (value.mapM (fun p => (pf p.1).map (fun ts => LogLine.mk ts p.2))).map
      (fun lines => acc ++ [(r.labels, lines)])
  | none => some acc

/-- src/query/loki.rs `loki_to_sample` (lines 65-113).  The result is `none`
exactly when the source function panics (a present timestamp string that
fails to parse as `f64`). -/
def loki_to_sample (pf : String → Option ℚ) (data : LokiData) :
    Option QueryResult :=
  match data.result_type with
  | .Vector =>
    (data.result.foldlM (loki_vector_step pf) []).map LogQueryResult.StreamInstant
  | .Matrix | .Streams =>
    (data.result.foldlM (loki_stream_step pf) []).map LogQueryResult.Stream

/-- The per-entry normalization of a vector-tagged Loki result entry: `none`
when the entry's `value` field is unpopulated or its timestamp fails to
parse; used to state which entries survive in the output. -/
def loki_vector_norm (pf : String → Option ℚ) (r : LokiResult) :
    Option (LabelSet × LogLine) :=
  r.value.bind (fun v => (pf v.1).map (fun ts => (r.labels, LogLine.mk ts v.2)))

/-- The possible outcomes of src/dashboard.rs `loki_query_data` once a
response has been received: an `Ok` value, an `Err` return (the
`anyhow::Result` error path), or a Rust panic. -/
inductive QueryOutcome where
  | ok (result : QueryResult)
  | err (msg : String)
  | panicked (msg : String)
deriving DecidableEq, Repr

/-- src/dashboard.rs `loki_query_data` (lines 141-154), from the point where
the backend response is available: a "success" status normalizes the data
(which may itself panic on a malformed timestamp, propagated here); any
other status hits the `panic!` branch, never the `Err` path. -/
def loki_query_data (pf : String → Option ℚ) (response : LokiResponse) :
    QueryOutcome :=
  if response.status = "success" then
    match loki_to_sample pf response.data with
    | some r => QueryOutcome.ok r
    | none => QueryOutcome.panicked "Invalid f64 type"
  else
    QueryOutcome.panicked ("Loki query status: " ++ response.status)

/-- src/query/logsql.rs `LogsqlResult`: the fixed fields plus the flattened
extra fields; `serde_json::Value` entries are modelled by their
`as_str` view (`none` for non-string values). -/
structure LogsqlResult where
  msg : String
  stream : String
  time : String
  fields : List (String × Option String)
deriving DecidableEq, Repr

/-- `HashMap::insert`: replace the value when the key exists, append
otherwise. -/
def insertAssoc (l : LabelSet) (k v : String) : LabelSet :=
  if l.any (fun p => p.1 == k) then
    l.map (fun p => if p.1 == k then (k, v) else p)
  else l ++ [(k, v)]

/-- Label construction in `logsql_to_sample` (src/query/logsql.rs lines
48-55): a "stream" label plus every string-valued extra field. -/
def logsql_labels (r : LogsqlResult) : LabelSet :=
  let labels := insertAssoc [] "stream" r.stream
  r.fields.foldl
    (fun labels kv =>
      match kv.2 with
      | some string_val => insertAssoc labels kv.1 string_val
      | none => labels)
    labels

/-- Timestamp handling in `logsql_to_sample` (src/query/logsql.rs lines
41-46): RFC3339 parse success maps to nanoseconds (zero if the nanosecond
count overflows), and a parse failure is logged and yields zero. -/
def logsql_timestamp (prc : String → Option DateTime) (time : String) : ℚ :=
  match prc time with
  | some dt => ((dt.timestamp_nanos_opt.getD 0 : Int) : ℚ)
  | none => 0

/-- src/query/logsql.rs `logsql_to_sample` (lines 37-67): every line is kept;
the result is always a `StreamInstant`. -/
def logsql_to_sample (prc : String → Option DateTime)
    (results : List LogsqlResult) : LogQueryResult :=
  LogQueryResult.StreamInstant
    (results.map (fun r =>
      (logsql_labels r, LogLine.mk (logsql_timestamp prc r.time) r.msg)))

/-- The `(start, end, step_resolution)` triple computed at the top of
`PromQueryConn::get_results` (src/query/prom.rs lines 120-144): the resolved
span when present, otherwise the current instant with a trailing 10 minutes
at a 30-second step. -/
def PromQueryConn.get_results_window (conn : PromQueryConn) (now : DateTime) :
    Int × Int × ℚ :=
  match conn.span with
  | some ts =>
    ((DateTime.sub ts.«end» ts.duration).timestamp, ts.«end».timestamp,
      (ts.step_seconds : ℚ))
  | none =>
    let «end» := now
    let start := DateTime.sub «end» (Duration.minutes 10)
    (start.timestamp, «end».timestamp, (30 : ℚ))

/-- src/query/loki.rs `LokiConn`. -/
structure LokiConn where
  url : String
  query : String
  span : Option TimeSpan
  query_type : QueryType
  limit : Option Nat
deriving DecidableEq, Repr

/-- src/query/loki.rs `LokiConn::new`. -/
def LokiConn.new (url query : String) (query_type : QueryType) : LokiConn :=
  { url := url, query := query, query_type := query_type,
    span := none, limit := none }

/-- src/query/loki.rs `LokiConn::with_limit`. -/
def LokiConn.with_limit (c : LokiConn) (limit : Nat) : LokiConn :=
  { c with limit := some limit }

/-- src/query/loki.rs `LokiConn::with_span`. -/
def LokiConn.with_span (c : LokiConn) («end» : DateTime) (duration : Duration)
    (step : Duration) : LokiConn :=
  { c with span := some ⟨«end», duration, step.num_seconds⟩ }

/-- src/query/loki.rs `SCALAR_API_PATH`. -/
def SCALAR_API_PATH : String := "/loki/api/v1/query"

/-- src/query/loki.rs `RANGE_API_PATH`. -/
def RANGE_API_PATH : String := "/loki/api/v1/query_range"

/-- The outbound Loki request built by `LokiConn::get_results`
(src/query/loki.rs lines 156-188), keeping the range parameters typed:
`range_params = (end timestamp, lookback whole seconds, step seconds)`,
present only for range queries. -/
structure LokiRequest where
  url : String
  query : String
  limit : Option Nat
  range_params : Option (Int × Int × ℚ)
deriving DecidableEq, Repr

/-- src/query/loki.rs `LokiConn::get_results` (request construction): path
selection by query type; for range queries the span, when present, supplies
`(since, end, step)`, and otherwise the default is the current instant with
a 10-minute lookback at a 30-second step. -/
def LokiConn.get_results_request (conn : LokiConn) (now : DateTime) :
    LokiRequest :=
  let url :=
    match conn.query_type with
    | .Scalar => conn.url ++ SCALAR_API_PATH
    | .Range => conn.url ++ RANGE_API_PATH
  let base : LokiRequest :=
    { url := url, query := conn.query, limit := conn.limit, range_params := none }
  match conn.query_type with
  | .Range =>
    let p : Duration × Int × ℚ :=
      match conn.span with
      | some span => (span.duration, span.«end».timestamp, (span.step_seconds : ℚ))
      | none => (Duration.minutes 10, now.timestamp, (30 : ℚ))
    { base with range_params := some (p.2.1, p.1.num_seconds, p.2.2) }
  | .Scalar => base

/-- src/query/logsql.rs `LogsqlConn`. -/
structure LogsqlConn where
  url : String
  query : String
  span : Option TimeSpan
  limit : Option Nat
deriving DecidableEq, Repr

/-- src/query/logsql.rs `LogsqlConn::new` (the query type argument is
ignored by the source). -/
def LogsqlConn.new (url query : String) (_query_type : QueryType) : LogsqlConn :=
  { url := url, query := query, span := none, limit := none }

/-- The form data built by `LogsqlConn::get_results` (src/query/logsql.rs
lines 112-125): always the query, optionally a limit, and start/end RFC3339
timestamps only when a span is present. -/
def LogsqlConn.form_data (conn : LogsqlConn) (env : Env) :
    List (String × String) :=
  let form_data := [("query", conn.query)]
  let form_data :=
    match conn.limit with
    | some limit => form_data ++ [("limit", toString limit)]
    | none => form_data
  match conn.span with
  | some span =>
    let start := DateTime.sub span.«end» span.duration
    form_data ++
      [("start", env.to_rfc3339 start), ("end", env.to_rfc3339 span.«end»)]
  | none => form_data

/-! Concrete stand-ins for the external parsers, used by the witness and
counterexample theorems. -/

/-- A concrete stand-in for Rust `str::parse::<f64>` that accepts decimal
natural-number literals and rejects everything else. -/
def parse_f64_nat (s : String) : Option ℚ :=
  if s.data ≠ [] ∧ s.data.all (fun c => c.isDigit) then
    some ((s.data.foldl (fun n c => 10 * n + (c.toNat - 48)) 0 : Nat) : ℚ)
  else none

/-- A default plot metadata record for concrete inputs. -/
def wMeta : PlotMeta := ⟨none, none, none⟩

/-- Pointwise relations lift to `Forall₂` against a mapped list. -/
theorem forall2_map_self {α β : Type} (R : β → α → Prop) (f : α → β)
    (h : ∀ a, R (f a) a) : ∀ l : List α, List.Forall₂ R (l.map f) l
  | [] => List.Forall₂.nil
  | a :: t => List.Forall₂.cons (h a) (forall2_map_self R f h t)

/-- Claim C9: the filter substitution engine is the identity on templates in
which none of the three reserved placeholder token-forms occur, for every
filter map; the filters are silently dropped. -/
theorem get_query_identity_no_placeholder (conn : PromQueryConn)
    (h1 : strContains conn.query FILTER_PLACEHOLDER_COMMA = false)
    (h2 : strContains conn.query FILTER_COMMA_PLACEHOLDER = false)
    (h3 : strContains conn.query FILTER_PLACEHOLDER = false) :
    conn.get_query = conn.query := by
  unfold PromQueryConn.get_query
  simp [h1, h2, h3]

/-- A connector whose template has no placeholder token but which carries a
non-empty filter map. -/
def w9Conn : PromQueryConn :=
  { source := "http://prom", query := "up", span := none,
    query_type := QueryType.Range, filters := some [("job", "api")],
    meta := wMeta }

/-- Witness for claim C9 at a concrete connector with non-empty filters. -/
theorem get_query_identity_no_placeholder_witness :
    strContains w9Conn.query FILTER_PLACEHOLDER = false
    ∧ w9Conn.get_query = w9Conn.query :=
  ⟨by decide,
    get_query_identity_no_placeholder w9Conn (by decide) (by decide) (by decide)⟩

/-- A connector with a two-entry filter map and the bare placeholder: the
`first` flag in `get_query` is never cleared, so no separating comma is
emitted between the two rendered clauses. -/
def c2Conn : PromQueryConn :=
  { source := "http://prom", query := "FILTERS", span := none,
    query_type := QueryType.Range, filters := some [("a", "1"), ("b", "2")],
    meta := wMeta }

/-- A connector with a single filter and the comma-prefixed placeholder. -/
def c2ConnSingle : PromQueryConn :=
  { source := "http://prom", query := "up,FILTERS", span := none,
    query_type := QueryType.Range, filters := some [("job", "api")],
    meta := wMeta }

/-- A connector with no filters and the comma-prefixed placeholder. -/
def c2ConnEmpty : PromQueryConn :=
  { source := "http://prom", query := "up,FILTERS", span := none,
    query_type := QueryType.Range, filters := none, meta := wMeta }

/-- Claim C2, evaluated on the code: with two filter entries the rendered
clauses are concatenated with NO separating comma (first conjunct), even
though the single-filter leading-comma case and the empty-filter
no-duplicate-comma case behave as the claim describes (second and third
conjuncts). -/
theorem get_query_filters_not_comma_joined :
    c2Conn.get_query = "a=~\"1\"b=~\"2\""
    ∧ c2ConnSingle.get_query = "up,job=~\"api\""
    ∧ c2ConnEmpty.get_query = "up" := by
  refine ⟨by decide, by decide, by decide⟩

/-- Claim C3 (amended): `get_query` checks the three token-forms in the
fixed order and substitutes each matching form in sequence — later checks
run on the already-substituted template and reuse the comma-adjusted filter
string carried from earlier matches. -/
theorem get_query_sequential_substitution (conn : PromQueryConn) :
    conn.get_query = filter_subst_pipeline (renderFilterString conn.filters) conn.query := by
  rfl

/-- A template containing both the comma-suffixed and the comma-prefixed
token-forms. -/
def c3Conn : PromQueryConn :=
  { source := "s", query := "FILTERS, X ,FILTERS", span := none,
    query_type := QueryType.Scalar, filters := none, meta := wMeta }

/-- Counterexample to claim C3 as stated: in the template
"FILTERS, X ,FILTERS" the first matching token-form is the comma-suffixed
one, yet the comma-prefixed form is ALSO substituted (the output is " X ",
with no ",FILTERS" left), contradicting "the other token-forms are left
unsubstituted". -/
theorem get_query_substitutes_later_forms_too :
    c3Conn.get_query = " X "
    ∧ strContains c3Conn.get_query FILTER_COMMA_PLACEHOLDER = false := by
  refine ⟨by decide, by decide⟩

/-- Claim C6: the metrics normalizer dispatches on the payload's own shape
tag — vector payloads become `Scalar` results with one sample per label set,
scalar payloads become a one-entry `Scalar` result with an empty label set,
and the connector's `query_type` has no effect on normalization. -/
theorem prom_to_samples_dispatches_on_payload_tag :
    (∀ (meta : PlotMeta) (v : List (LabelSet × Sample)),
      ∃ out, prom_to_samples (Data.Vector v) meta = MetricsQueryResult.Scalar out
        ∧ List.Forall₂
            (fun o r =>
              o.1 = r.1 ∧ o.2.1 = meta ∧ o.2.2 = DataPoint.mk r.2.timestamp r.2.value)
            out v)
    ∧ (∀ (meta : PlotMeta) (s : Sample),
      prom_to_samples (Data.Scalar s) meta
        = MetricsQueryResult.Scalar [([], meta, DataPoint.mk s.timestamp s.value)])
    ∧ (∀ (conn : PromQueryConn) (qt : QueryType) (d : Data),
      prom_query_data_step { conn with query_type := qt } d
        = prom_query_data_step conn d) := by
  refine ⟨?_, ?_, ?_⟩
  · intro meta v
    exact ⟨_, rfl, forall2_map_self _ _ (fun a => ⟨rfl, rfl, rfl⟩) v⟩
  · intro meta s
    rfl
  · intro conn qt d
    rfl

/-- Claim C7: normalizing a matrix payload yields a `Series` with exactly
one entry per label set, each carrying its label set and its samples as
`DataPoint`s in the original payload order. -/
theorem prom_to_samples_matrix_roundtrip (meta : PlotMeta)
    (range : List (LabelSet × List Sample)) :
    ∃ out, prom_to_samples (Data.Matrix range) meta = MetricsQueryResult.Series out
      ∧ out.length = range.length
      ∧ List.Forall₂
          (fun o rv =>
            o.1 = rv.1 ∧ o.2.1 = meta ∧ o.2.2.length = rv.2.length
              ∧ List.Forall₂ (fun dp s => dp = DataPoint.mk s.timestamp s.value) o.2.2 rv.2)
          out range := by
  refine ⟨_, rfl, by simp, forall2_map_self _ _ ?_ range⟩
  intro rv
  exact ⟨rfl, rfl, by simp,
    forall2_map_self (fun dp s => dp = DataPoint.mk s.timestamp s.value)
      (fun s => DataPoint.mk s.timestamp s.value) (fun s => rfl) rv.2⟩

/-- Claim C10: once a Loki response with a non-"success" status is received,
`loki_query_data` panics; it neither returns a normalized result nor an
`Err` value, so the caller never sees this condition as a recoverable
error. -/
theorem loki_query_data_panics_on_non_success (pf : String → Option ℚ)
    (response : LokiResponse) (h : response.status ≠ "success") :
    loki_query_data pf response
      = QueryOutcome.panicked ("Loki query status: " ++ response.status)
    ∧ (∀ r, loki_query_data pf response ≠ QueryOutcome.ok r)
    ∧ (∀ msg, loki_query_data pf response ≠ QueryOutcome.err msg) := by
  unfold loki_query_data
  rw [if_neg h]
  refine ⟨rfl, fun r => ?_, fun msg => ?_⟩ <;> intro hcon <;> cases hcon

/-- A Loki response with status "error". -/
def w10Resp : LokiResponse := ⟨"error", ⟨ResultType.Vector, []⟩⟩

/-- Witness for claim C10 on a concrete response with status "error". -/
theorem loki_query_data_panics_on_non_success_witness :
    w10Resp.status ≠ "success"
    ∧ loki_query_data parse_f64_nat w10Resp
        = QueryOutcome.panicked "Loki query status: error" := by
  refine ⟨by decide, ?_⟩
  exact (loki_query_data_panics_on_non_success parse_f64_nat w10Resp (by decide)).1

/-- Claim C1: for every combination of query-parameter span, panel (graph)
span and dashboard span, each connector's span is taken entirely from the
highest-precedence candidate that resolves (query parameter, then the
graph's own span, then the dashboard span passed as `graph_span`); a
candidate whose duration or step fails to parse contributes nothing and the
resolver falls through, never mixing fields from different levels. -/
theorem get_query_connections_span_precedence (env : Env) (g : Graph)
    (graph_span query_span : Option GraphSpan)
    (filters : Option (List (String × String)))
    (conn : PromQueryConn)
    (hc : conn ∈ g.get_query_connections env graph_span query_span filters) :
    (∀ e duration step,
        graph_span_to_tuple env query_span = some (e, duration, step) →
        conn.span = some ⟨e, duration, step.num_seconds⟩)
    ∧ (graph_span_to_tuple env query_span = none →
        ∀ e duration step,
          graph_span_to_tuple env g.span = some (e, duration, step) →
          conn.span = some ⟨e, duration, step.num_seconds⟩)
    ∧ (graph_span_to_tuple env query_span = none →
        graph_span_to_tuple env g.span = none →
        ∀ e duration step,
          graph_span_to_tuple env graph_span = some (e, duration, step) →
          conn.span = some ⟨e, duration, step.num_seconds⟩)
    ∧ (graph_span_to_tuple env query_span = none →
        graph_span_to_tuple env g.span = none →
        graph_span_to_tuple env graph_span = none →
        conn.span = none)
    ∧ (∀ sp : GraphSpan, duration_from_string env sp.duration = none →
        graph_span_to_tuple env (some sp) = none)
    ∧ (∀ sp : GraphSpan, duration_from_string env sp.step_duration = none →
        graph_span_to_tuple env (some sp) = none) := by
  obtain ⟨plot, -, rfl⟩ := List.mem_map.mp hc
  refine ⟨?_, ?_, ?_, ?_, ?_, ?_⟩
  · intro e duration step h
    simp only [h]
    cases filters <;>
      simp [PromQueryConn.new, PromQueryConn.with_filters, PromQueryConn.with_span]
  · intro h0 e duration step h
    simp only [h0, h]
    cases filters <;>
      simp [PromQueryConn.new, PromQueryConn.with_filters, PromQueryConn.with_span]
  · intro h0 h1 e duration step h
    simp only [h0, h1, h]
    cases filters <;>
      simp [PromQueryConn.new, PromQueryConn.with_filters, PromQueryConn.with_span]
  · intro h0 h1 h2
    simp only [h0, h1, h2]
    cases filters <;>
      simp [PromQueryConn.new, PromQueryConn.with_filters]
  · intro sp h
    simp [graph_span_to_tuple, h]
  · intro sp h
    cases hdur : duration_from_string env sp.duration <;>
      simp [graph_span_to_tuple, hdur, h]

/-- A concrete environment: "5m" and "30s" parse as durations, everything
else fails; one RFC3339 instant parses. -/
def wEnv : Env :=
  { parse_duration := fun s =>
      if s = "5m" then some ⟨300000000000⟩
      else if s = "30s" then some ⟨30000000000⟩
      else none,
    parse_from_rfc3339 := fun s =>
      if s = "2024-01-01T00:00:00Z" then some ⟨1704067200000000000⟩ else none,
    to_rfc3339 := fun d => toString d.nanos,
    now := ⟨1700000000000000000⟩ }

/-- A query-parameter span whose duration does not parse. -/
def w1QuerySpan : Option GraphSpan := some ⟨"now", "BAD", "30s"⟩

/-- A dashboard span that parses fully (and must nonetheless lose to the
graph's own span). -/
def w1DashSpan : Option GraphSpan := some ⟨"now", "5m", "5m"⟩

/-- A one-plot graph with its own fully parseable span. -/
def w1Graph : Graph :=
  { title := "g", legend_orientation := none, yaxes := [],
    plots := [⟨"http://prom", "up", wMeta⟩],
    span := some ⟨"now", "5m", "30s"⟩,
    query_type := QueryType.Range, d3_tick_format := none }

/-- The connector the span-precedence chain must produce for `w1Graph`:
span taken entirely from the graph's own span. -/
def w1Conn : PromQueryConn :=
  { source := "http://prom", query := "up",
    span := some ⟨wEnv.now, ⟨300000000000⟩, 30⟩,
    query_type := QueryType.Range, filters := none, meta := wMeta }

/-- Witness for claim C1: with an unparseable query-parameter span, a
parseable graph span and a parseable dashboard span, the produced
connector's span comes entirely from the graph span. -/
theorem get_query_connections_span_precedence_witness :
    w1Conn ∈ Graph.get_query_connections wEnv w1Graph w1DashSpan w1QuerySpan none
    ∧ graph_span_to_tuple wEnv w1QuerySpan = none
    ∧ w1Conn.span = some ⟨wEnv.now, ⟨300000000000⟩, 30⟩ := by
  have hm : w1Conn ∈ Graph.get_query_connections wEnv w1Graph w1DashSpan w1QuerySpan none := by
    decide
  refine ⟨hm, by decide, ?_⟩
  exact (get_query_connections_span_precedence wEnv w1Graph w1DashSpan w1QuerySpan
    none w1Conn hm).2.1 (by decide) wEnv.now ⟨300000000000⟩ ⟨30000000000⟩ (by decide)

/-- Claim C4 (amended): a LogsQL line whose timestamp fails to parse is kept
with a zero timestamp (and a logged error), the rest of the lines unchanged;
but a Loki-style entry whose present numeric timestamp string fails to parse
makes `loki_to_sample` panic (modelled by `none`) instead of yielding a
zero-timestamp line. -/
theorem log_timestamp_parse_failure_behavior :
    (∀ (prc : String → Option DateTime) (r : LogsqlResult) (rs : List LogsqlResult),
      prc r.time = none →
      logsql_to_sample prc (r :: rs)
        = LogQueryResult.StreamInstant
            ((logsql_labels r, LogLine.mk 0 r.msg)
              :: rs.map (fun x =>
                  (logsql_labels x, LogLine.mk (logsql_timestamp prc x.time) x.msg))))
    ∧ (∀ (pf : String → Option ℚ) (labels : LabelSet) (ts line : String)
        (values : Option (List (String × String))) (rest : List LokiResult),
      pf ts = none →
      loki_to_sample pf ⟨ResultType.Vector, ⟨labels, some (ts, line), values⟩ :: rest⟩
        = none) := by
  constructor
  · intro prc r rs h
    simp [logsql_to_sample, logsql_timestamp, h]
  · intro pf labels ts line values rest h
    simp [loki_to_sample, loki_vector_step, h]

/-- Counterexample to claim C4 as stated: a Loki vector entry whose
timestamp string fails numeric parsing panics (no output at all) instead of
producing the zero-timestamp line the claim requires. -/
theorem loki_bad_timestamp_panics :
    loki_to_sample parse_f64_nat
        ⟨ResultType.Vector, [⟨[], some ("not-a-number", "line"), none⟩]⟩ = none
    ∧ loki_to_sample parse_f64_nat
        ⟨ResultType.Vector, [⟨[], some ("not-a-number", "line"), none⟩]⟩
      ≠ some (LogQueryResult.StreamInstant [([], LogLine.mk 0 "line")]) := by
  refine ⟨by decide, by decide⟩

/-- An RFC3339 parser stand-in recognizing a single instant. -/
def wPrcRfc : String → Option DateTime :=
  fun s => if s = "2024-01-01T00:00:00Z" then some ⟨1704067200000000000⟩ else none

/-- A LogsQL line with an unparseable timestamp. -/
def w4LogsqlR : LogsqlResult := ⟨"hello", "s1", "garbage", []⟩

/-- A Loki vector payload with an unparseable numeric timestamp. -/
def w4LokiData : LokiData := ⟨ResultType.Vector, [⟨[], some ("nope", "line"), none⟩]⟩

/-- Witness for claim C4 (amended) at concrete inputs: the LogsQL line is
kept with timestamp zero; the Loki entry panics. -/
theorem log_timestamp_parse_failure_behavior_witness :
    logsql_to_sample wPrcRfc [w4LogsqlR]
      = LogQueryResult.StreamInstant [([("stream", "s1")], LogLine.mk 0 "hello")]
    ∧ loki_to_sample parse_f64_nat w4LokiData = none := by
  constructor
  · exact (log_timestamp_parse_failure_behavior).1 wPrcRfc w4LogsqlR [] (by decide)
  · exact (log_timestamp_parse_failure_behavior).2 parse_f64_nat [] "nope" "line" none []
      (by decide)

/-- Subtracting ten minutes moves the whole-second timestamp back by exactly
600 seconds. -/
theorem dt_sub_minutes10_timestamp (d : DateTime) :
    (DateTime.sub d (Duration.minutes 10)).timestamp = d.timestamp - 600 := by
  unfold DateTime.sub DateTime.timestamp Duration.minutes
  rw [Int.fdiv_eq_ediv _ (by norm_num), Int.fdiv_eq_ediv _ (by norm_num)]
  have h : d.nanos - 10 * 60 * 1000000000 = d.nanos + (-600) * 1000000000 := by ring
  rw [h, Int.add_mul_ediv_right _ _ (by norm_num : (1000000000 : Int) ≠ 0)]
  ring

/-- Claim C5 (amended): with no resolved span, the Prometheus-style
connector uses the default window (start = end − 600 s, end = now,
step = 30 s) and the Loki-style range request carries (end = now,
lookback = 600 s, step = 30 s); the LogsQL-style connector, however, sends
no "start"/"end" time bounds at all. -/
theorem default_query_window (now : DateTime) :
    (∀ conn : PromQueryConn, conn.span = none →
      conn.get_results_window now = (now.timestamp - 600, now.timestamp, (30 : ℚ)))
    ∧ (∀ conn : LokiConn, conn.query_type = QueryType.Range → conn.span = none →
      (conn.get_results_request now).range_params
        = some (now.timestamp, 600, (30 : ℚ)))
    ∧ (∀ (conn : LogsqlConn) (env : Env), conn.span = none →
      List.lookup "start" (conn.form_data env) = none
      ∧ List.lookup "end" (conn.form_data env) = none) := by
  refine ⟨?_, ?_, ?_⟩
  · intro conn h
    simp [PromQueryConn.get_results_window, h, dt_sub_minutes10_timestamp]
  · intro conn hq h
    have h600 : (Duration.minutes 10).num_seconds = 600 := by decide
    simp [LokiConn.get_results_request, hq, h, h600]
  · intro conn env h
    cases hl : conn.limit <;> simp [LogsqlConn.form_data, h, hl, List.lookup]

/-- A LogsQL connector with no span. -/
def c5LogsqlConn : LogsqlConn := LogsqlConn.new "http://victoria" "q" QueryType.Range

/-- Counterexample to claim C5 as stated ("every connector queries a fixed
default window"): the LogsQL connector with no resolved span posts only the
query — no "start" or "end" bound appears in the form data, so no
10-minute default window is queried. -/
theorem logsql_no_default_window :
    c5LogsqlConn.form_data wEnv = [("query", "q")]
    ∧ List.lookup "start" (c5LogsqlConn.form_data wEnv) = none
    ∧ List.lookup "end" (c5LogsqlConn.form_data wEnv) = none := by
  refine ⟨by decide, by decide, by decide⟩

/-- The "now" instant used by the C5 witness. -/
def w5Now : DateTime := ⟨1700000000000000000⟩

/-- A span-less Prometheus connector. -/
def w5PromConn : PromQueryConn :=
  { source := "s", query := "q", span := none, query_type := QueryType.Range,
    filters := none, meta := wMeta }

/-- A span-less Loki range connector. -/
def w5LokiConn : LokiConn :=
  { url := "u", query := "q", span := none, query_type := QueryType.Range,
    limit := none }

/-- A span-less LogsQL connector. -/
def w5LogsqlConn : LogsqlConn :=
  { url := "u", query := "q", span := none, limit := none }

/-- Witness for claim C5 (amended) at concrete connectors and a concrete
instant. -/
theorem default_query_window_witness :
    w5PromConn.get_results_window w5Now = (1699999400, 1700000000, (30 : ℚ))
    ∧ (w5LokiConn.get_results_request w5Now).range_params
        = some (1700000000, 600, (30 : ℚ))
    ∧ List.lookup "start" (w5LogsqlConn.form_data wEnv) = none := by
  refine ⟨?_, ?_, ?_⟩
  · exact ((default_query_window w5Now).1 w5PromConn rfl).trans (by decide)
  · exact ((default_query_window w5Now).2.1 w5LokiConn rfl rfl).trans (by decide)
  · exact ((default_query_window w5Now).2.2 w5LogsqlConn wEnv rfl).1

/-- `foldlM` over `Option` splits across an append. -/
theorem foldlM_opt_append {α β : Type} (f : β → α → Option β)
    (l1 l2 : List α) (b : β) :
    List.foldlM f b (l1 ++ l2)
      = (List.foldlM f b l1).bind (fun b2 => List.foldlM f b2 l2) := by
  induction l1 generalizing b with
  | nil => simp
  | cons a t ih =>
    simp only [List.cons_append, List.foldlM_cons]
    cases f b a <;> simp [ih]

/-- An element the step function ignores can be removed from a `foldlM` over
`Option`. -/
theorem foldlM_opt_skip {α β : Type} (f : β → α → Option β) (x : α)
    (hx : ∀ b, f b x = some b) (l1 l2 : List α) (b : β) :
    List.foldlM f b (l1 ++ x :: l2) = List.foldlM f b (l1 ++ l2) := by
  rw [foldlM_opt_append, foldlM_opt_append]
  cases List.foldlM f b l1 <;> simp [hx]

/-- When every populated entry's timestamp parses, the vector fold succeeds
and produces exactly the surviving entries in order. -/
theorem loki_vector_fold_ok (pf : String → Option ℚ) (l : List LokiResult) :
    ∀ acc : List (LabelSet × LogLine),
      (∀ r ∈ l, ∀ v, r.value = some v → (pf v.1).isSome) →
      List.foldlM (loki_vector_step pf) acc l
        = some (acc ++ l.filterMap (loki_vector_norm pf)) := by
  induction l with
  | nil => intro acc _; simp
  | cons r t ih =>
    intro acc h
    have hr := h r (List.mem_cons_self r t)
    have ht : ∀ x ∈ t, ∀ v, x.value = some v → (pf v.1).isSome :=
      fun x hx => h x (List.mem_cons_of_mem r hx)
    cases hv : r.value with
    | none =>
      simp only [List.foldlM_cons, loki_vector_step, hv]
      rw [show ((some acc : Option (List (LabelSet × LogLine))) >>= fun b =>
        List.foldlM (loki_vector_step pf) b t)
          = List.foldlM (loki_vector_step pf) acc t from rfl]
      rw [ih acc ht]
      simp [loki_vector_norm, hv]
    | some v =>
      obtain ⟨ts, hts⟩ := Option.isSome_iff_exists.mp (hr v hv)
      simp only [List.foldlM_cons, loki_vector_step, hv, hts]
      rw [show ((some (acc ++ [(r.labels, LogLine.mk ts v.2)]) :
          Option (List (LabelSet × LogLine))) >>= fun b =>
        List.foldlM (loki_vector_step pf) b t)
          = List.foldlM (loki_vector_step pf) (acc ++ [(r.labels, LogLine.mk ts v.2)]) t
        from rfl]
      rw [ih (acc ++ [(r.labels, LogLine.mk ts v.2)]) ht]
      simp [loki_vector_norm, hv, hts]

/-- Claim C8: a Loki result entry whose expected payload field is
unpopulated (no `value` under a vector tag; no `values` under a matrix or
streams tag) is dropped — exactly that entry is omitted and the remaining
entries are unaffected (first three conjuncts, unconditionally); and when
every other populated entry parses, the query still succeeds with exactly
the surviving entries normalized in order (last conjunct). -/
theorem loki_missing_field_entry_dropped (pf : String → Option ℚ)
    (labels : LabelSet) (value : Option (String × String))
    (values : Option (List (String × String)))
    (pre post : List LokiResult) :
    (loki_to_sample pf ⟨ResultType.Vector, pre ++ ⟨labels, none, values⟩ :: post⟩
        = loki_to_sample pf ⟨ResultType.Vector, pre ++ post⟩)
    ∧ (loki_to_sample pf ⟨ResultType.Matrix, pre ++ ⟨labels, value, none⟩ :: post⟩
        = loki_to_sample pf ⟨ResultType.Matrix, pre ++ post⟩)
    ∧ (loki_to_sample pf ⟨ResultType.Streams, pre ++ ⟨labels, value, none⟩ :: post⟩
        = loki_to_sample pf ⟨ResultType.Streams, pre ++ post⟩)
    ∧ ((∀ r ∈ pre ++ post, ∀ v, r.value = some v → (pf v.1).isSome) →
      loki_to_sample pf ⟨ResultType.Vector, pre ++ ⟨labels, none, values⟩ :: post⟩
        = some (LogQueryResult.StreamInstant
            ((pre ++ post).filterMap (loki_vector_norm pf)))) := by
  refine ⟨?_, ?_, ?_, ?_⟩
  · show (List.foldlM (loki_vector_step pf) [] (pre ++ _ :: post)).map _ = _
    rw [foldlM_opt_skip (loki_vector_step pf) ⟨labels, none, values⟩
      (fun b => rfl) pre post []]
    rfl
  · show (List.foldlM (loki_stream_step pf) [] (pre ++ _ :: post)).map _ = _
    rw [foldlM_opt_skip (loki_stream_step pf) ⟨labels, value, none⟩
      (fun b => rfl) pre post []]
    rfl
  · show (List.foldlM (loki_stream_step pf) [] (pre ++ _ :: post)).map _ = _
    rw [foldlM_opt_skip (loki_stream_step pf) ⟨labels, value, none⟩
      (fun b => rfl) pre post []]
    rfl
  · intro h
    show (List.foldlM (loki_vector_step pf) [] (pre ++ _ :: post)).map _ = _
    rw [foldlM_opt_skip (loki_vector_step pf) ⟨labels, none, values⟩
      (fun b => rfl) pre post []]
    rw [loki_vector_fold_ok pf (pre ++ post) [] h]
    simp

/-- A well-formed vector entry. -/
def w8Good : LokiResult := ⟨[("app", "a")], some ("5", "line1"), none⟩

/-- A vector entry with no `value` field. -/
def w8Bad : LokiResult := ⟨[("b", "b")], none, none⟩

/-- Witness for claim C8: with one well-formed entry and one entry missing
its `value`, the query succeeds, the bad entry alone is dropped, and the
result equals normalizing the response without the bad entry. -/
theorem loki_missing_field_entry_dropped_witness :
    loki_to_sample parse_f64_nat ⟨ResultType.Vector, [w8Good, w8Bad]⟩
      = some (LogQueryResult.StreamInstant [([("app", "a")], LogLine.mk 5 "line1")])
    ∧ loki_to_sample parse_f64_nat ⟨ResultType.Vector, [w8Good, w8Bad]⟩
      = loki_to_sample parse_f64_nat ⟨ResultType.Vector, [w8Good]⟩ := by
  have h := loki_missing_field_entry_dropped parse_f64_nat [("b", "b")] none none
    [w8Good] []
  have hok : ∀ r ∈ ([w8Good] ++ ([] : List LokiResult)), ∀ v,
      r.value = some v → (parse_f64_nat v.1).isSome := by
    intro r hr v hv
    simp only [List.append_nil, List.mem_singleton] at hr
    subst hr
    rw [show w8Good.value = some ("5", "line1") from rfl] at hv
    cases hv
    decide
  exact ⟨(h.2.2.2 hok).trans (by decide), h.1⟩

end Heracles
